import Mathlib

/-!
Verification development for the `azure_cost_op` repository
(`src/azure_vm_cost_comparison.py`, `src/price_sheet.py`).

The Python program is shallowly embedded: Python `float` values are
modelled as `ℚ` (all arithmetic the claims mention is exact decimal
arithmetic on small values, where binary-float and rational evaluation
agree; `round(x, n)` / `"%.2f"`-formatting is modelled as rational
rounding to `n` decimal digits — the proofs below never touch a
half-way tie, which is the only place Python's round-half-even could
differ from `round`), Python `dict`s are modelled as insertion-ordered
association lists (`List (String × β)`), absent keys as `Option`, and
network page streams as pure functions `ℕ → Page`.
-/

/-- Truthiness of an optional string, as Python evaluates it in
`if not skip_token`, `while next_link`, `if not all([...])`:
`None` and the empty string are falsy. -/
def strTruthy : Option String → Bool
  | none => false
  | some s => !(s == "")

/-- First-match lookup in an association list: Python `dict.get(k)`. -/
def lookupA {β : Type} (l : List (String × β)) (k : String) : Option β :=
  (l.find? (fun e => e.1 == k)).map (fun e => e.2)

/-- Python `dict` store `d[k] = v`: updates the first binding of `k` in
place, or appends a new binding at the end (insertion order). -/
def setAssoc {β : Type} (l : List (String × β)) (k : String) (v : β) :
    List (String × β) :=
  match l with
  | [] => [(k, v)]
  | e :: t => if e.1 == k then (k, v) :: t else e :: setAssoc t k v

/-- Substring test on character lists; `listInfix p l` holds iff `p`
occurs contiguously inside `l`. -/
def listInfix (p : List Char) : List Char → Bool
  | [] => p.isEmpty
  | a :: as => p.isPrefixOf (a :: as) || listInfix p as

/-- Python `needle in haystack` for strings. -/
def containsStr (haystack needle : String) : Bool :=
  listInfix needle.toList haystack.toList

/-- Rounding a rational to `2` decimal digits, modelling the Python
`f"{x:.2f}"` formatting / `round(x, 2)` used by the source (ties,
which Python breaks to even on the underlying binary float, never
occur in the statements proved here). -/
def round2 (q : ℚ) : ℚ := ((⌊q * 100 + 1/2⌋ : ℤ) : ℚ) / 100

/-- Rounding a rational to `1` decimal digit, modelling `round(x, 1)`. -/
def round1 (q : ℚ) : ℚ := ((⌊q * 10 + 1/2⌋ : ℤ) : ℚ) / 10

/-! ### UtilizationSampler: per-resource metric reduction
Embeds `fetch_vm_utilization` (src/azure_vm_cost_comparison.py,
lines 237–332). -/

/-- One entry of the metric series: a JSON object whose `"average"` /
`"maximum"` keys may be null or absent (`None` in Python). -/
structure DataPoint where
  average : Option ℚ
  maximum : Option ℚ
deriving DecidableEq, Repr

/-- A utilization record as stored in `utilization_data[name]`. -/
structure UtilEntry where
  avg_cpu : Option ℚ
  peak_cpu : Option ℚ
  recommendation : String
deriving DecidableEq, Repr

/-- The non-null `"average"` samples (`avg_values` in the source). -/
def avgSamples (pts : List DataPoint) : List ℚ :=
  pts.filterMap (fun d => d.average)

/-- The non-null `"maximum"` samples (`max_values` in the source). -/
def maxSamples (pts : List DataPoint) : List ℚ :=
  pts.filterMap (fun d => d.maximum)

/-- Arithmetic mean `sum(l) / len(l)` (callers guarantee `l ≠ []`). -/
def meanOf (l : List ℚ) : ℚ := l.sum / l.length

/-- Python `max(l)` on a nonempty list. -/
def listMax (l : List ℚ) : ℚ :=
  match l with
  | [] => 0
  | a :: t => t.foldl max a

/-- The classification decision tree of lines 294–301, as a pure
function of the (unrounded) `avg_cpu` and `peak_cpu` values. -/
def classify (avgCpu peakCpu : ℚ) : String :=
  if avgCpu < 10 ∧ peakCpu < 30 then "⚠️ Very low utilization"
  else if avgCpu < 20 ∧ peakCpu < 50 then "⚠️ Low utilization"
  else if avgCpu > 70 ∨ peakCpu > 90 then "⚡ High utilization"
  else "✓ Normal"

/-- Reduction of one resource's data-point list to its stored entry
(lines 280–307): mean of the non-null averages, max of the non-null
maxima (falling back to the mean when there are none), the
classification, and the 1-decimal rounding applied on storage. -/
def sampleFromPoints (pts : List DataPoint) : UtilEntry :=
  let avg_values := avgSamples pts
  if avg_values = [] then
    ⟨none, none, "No data points"⟩
  else
    let avg_cpu := avg_values.sum / avg_values.length
    let max_values := maxSamples pts
    let peak_cpu := if max_values = [] then avg_cpu else listMax max_values
    ⟨some (round1 avg_cpu), some (round1 peak_cpu), classify avg_cpu peak_cpu⟩

/-- The metrics response envelope: `data["value"][i]["timeseries"][j]["data"]`. -/
structure TimeSeries where
  data : List DataPoint
deriving DecidableEq, Repr

structure Metric where
  timeseries : List TimeSeries
deriving DecidableEq, Repr

structure MetricsPayload where
  value : List Metric
deriving DecidableEq, Repr

/-- Processing of one successful metrics response (lines 261–307):
empty `value` → "No metrics available"; empty `timeseries` or empty
`data` → "No data points"; otherwise reduce the data points. -/
def processPayload (p : MetricsPayload) : UtilEntry :=
  match p.value with
  | [] => ⟨none, none, "No metrics available"⟩
  | m :: _ =>
    match m.timeseries with
    | [] => ⟨none, none, "No data points"⟩
    | ts :: _ =>
      match ts.data with
      | [] => ⟨none, none, "No data points"⟩
      | pts => sampleFromPoints pts

/-! ### UtilizationSampler: the per-resource fetch loop (C8)
The network outcome of each per-resource metrics request is an oracle
value attached to the resource; the loop body embeds lines 237–329. -/

/-- Outcome of the metrics HTTP request for one resource. -/
inductive FetchOutcome where
  | ok (payload : MetricsPayload)
  | timeout
  | httpErr (status : ℕ)
  | exc
deriving DecidableEq, Repr

/-- The identity fields of one inventory resource that the sampler
reads (`vm.get('id')`, `vm.get('name')`). -/
structure VMRef where
  id : String
  name : String
deriving DecidableEq, Repr

/-- Does this element abort the sampling loop? (a non-skipped resource
whose request came back HTTP 429, lines 315–318). -/
def triggers429 (e : VMRef × FetchOutcome) : Bool :=
  !(e.1.id == "") &&
    (match e.2 with
     | FetchOutcome.httpErr s => s == 429
     | _ => false)

/-- The error entry the loop stores for a non-429 failure outcome
(`none` for success and for the aborting 429 case). -/
def errEntryOf : FetchOutcome → Option UtilEntry
  | FetchOutcome.timeout => some ⟨none, none, "Timeout"⟩
  | FetchOutcome.httpErr s =>
      if s == 429 then none else some ⟨none, none, "Error"⟩
  | FetchOutcome.exc => some ⟨none, none, "Error"⟩
  | FetchOutcome.ok _ => none

/-- The sampling loop of `fetch_vm_utilization` (lines 237–329):
walks the resources in order, skips those with an empty id, stores one
entry per sampled resource keyed by lower-cased name, and `break`s —
returning the accumulator collected so far — on HTTP 429. -/
def utilLoopAux (acc : List (String × UtilEntry)) :
    List (VMRef × FetchOutcome) → List (String × UtilEntry)
  | [] => acc
  | (vm, out) :: rest =>
    if vm.id == "" then utilLoopAux acc rest
    else
      let key := vm.name.toLower
      match out with
      | FetchOutcome.ok p => utilLoopAux (setAssoc acc key (processPayload p)) rest
      | FetchOutcome.timeout =>
          utilLoopAux (setAssoc acc key ⟨none, none, "Timeout"⟩) rest
      | FetchOutcome.httpErr s =>
          if s == 429 then acc
          else utilLoopAux (setAssoc acc key ⟨none, none, "Error"⟩) rest
      | FetchOutcome.exc =>
          utilLoopAux (setAssoc acc key ⟨none, none, "Error"⟩) rest

/-- `fetch_vm_utilization` over an outcome-annotated resource list. -/
def fetchVmUtilization (rs : List (VMRef × FetchOutcome)) :
    List (String × UtilEntry) :=
  utilLoopAux [] rs

/-! ### CostAggregator (C4, C5)
Embeds `fetch_cost_by_resource` (src/azure_vm_cost_comparison.py,
lines 111–224), in particular the row reduction `process_rows`
(lines 161–183) and the summary derivation (lines 202–221). -/

/-- One positional cell of a cost row. `num q` stands for any Python
value on which `float(...)` succeeds and yields `q` (a JSON number or
a numeric string); `str s` for a string on which `float` raises
`ValueError`; `null` for JSON null (`float(None)` raises `TypeError`). -/
inductive CellVal where
  | num (q : ℚ)
  | str (s : String)
  | null
deriving DecidableEq, Repr

/-- A cost row is a positional list of cells. -/
abbrev CostRow := List CellVal

/-- Per-resource running accumulator: Python's
`defaultdict(lambda: {"total_cost_3m": 0.0, "active_days": 0})`,
modelled as a total function with zero default. -/
abbrev Stats := String → ℚ × ℕ

def emptyStats : Stats := fun _ => (0, 0)

/-- Python `full_id.split('/')[-1].lower()`. -/
def lastSegLower (s : String) : String :=
  ((s.splitOn "/").getLastD "").toLower

/-- The resource key a row contributes to: `none` when the row is
skipped (fewer than 3 fields, or — an implicit well-formedness
assumption, see `RowWF` — a non-string id cell). -/
def rowRid (row : CostRow) : Option String :=
  if row.length < 3 then none
  else
    match row[2]? with
    | some (CellVal.str s) => some (lastSegLower s)
    | _ => none

/-- The cost value of a row: `float(row[0])`, with 0.0 substituted
when the conversion fails (lines 172–175). -/
def rowCostVal (row : CostRow) : ℚ :=
  match row[0]? with
  | some (CellVal.num q) => q
  | _ => 0

/-- The body of `process_rows` for one row (lines 163–181). -/
def processRow (s : Stats) (row : CostRow) : Stats :=
  match rowRid row with
  | none => s
  | some rid =>
    let cost := rowCostVal row
    fun k =>
      if k = rid then
        ((s rid).1 + cost, (s rid).2 + (if cost > 0 then 1 else 0))
      else s k

/-- `process_rows`: fold the row reduction over one page of rows. -/
def processRows (rows : List CostRow) (s : Stats) : Stats :=
  rows.foldl processRow s

/-- In the source, a row of length ≥ 3 whose third cell is not a
string raises an uncaught `AttributeError` in `full_id.split('/')`;
the theorems about `processRows` are restricted to rows that do not
hit that path. -/
def rowWF (row : CostRow) : Bool :=
  decide (row.length < 3) ||
    (match row[2]? with
     | some (CellVal.str _) => true
     | _ => false)

def RowWF (row : CostRow) : Prop := rowWF row = true

instance : DecidablePred RowWF := fun row =>
  decidable_of_iff (rowWF row = true) Iff.rfl

/-- What one row adds to the running total of resource `rid`
(the spec-side characterization of the loop body). -/
def rowContribution (rid : String) (row : CostRow) : ℚ :=
  if rowRid row = some rid then rowCostVal row else 0

/-- Whether one row counts as an active day for resource `rid`. -/
def rowActive (rid : String) (row : CostRow) : Bool :=
  rowRid row == some rid && decide (rowCostVal row > 0)

/-- The derived per-resource summary of lines 202–221
(`FULL_WINDOW_DAYS = 90`, `MONTHS_IN_WINDOW = 3.0`). -/
structure CostSummary where
  total_cost_3m : ℚ
  active_days : ℕ
  avg_monthly_cost : ℚ
  one_year_est : ℚ
  three_year_est : ℚ
  is_new : Bool
deriving DecidableEq, Repr

/-- Builds one resource's summary from its accumulated total and
active-day count (the loop body of lines 206–221). -/
def costSummaryOf (total : ℚ) (active_days : ℕ) : CostSummary :=
  let avg_monthly := total / 3
  ⟨total, active_days, avg_monthly, avg_monthly * 12, avg_monthly * 36,
    decide (active_days < 90)⟩

/-! ### Price catalog data model
The 4-level dictionary built by `format_data` (src/price_sheet.py) and
consumed by `join_data`: location → size → product-series → tier →
price fields. Dictionaries whose iteration order matters (the series
and tier levels are iterated by `join_data` in insertion order) are
association lists. -/

/-- The price-field record held in one (location, size, product, tier)
cell. Python keys: `payg`, `payg1Month`, `payg1Year`, `1year`,
`3year`, `devtest` (the last two cannot start a Lean identifier, so
they are `oneYear` / `threeYear`); an absent key is `none`. The
`payg1Month` / `payg1Year` values are stored by the source as the
2-decimal string rendering of the product, modelled as the rounded
rational. -/
structure Prices where
  payg : Option ℚ
  payg1Month : Option ℚ
  payg1Year : Option ℚ
  oneYear : Option ℚ
  threeYear : Option ℚ
  devtest : Option ℚ
deriving DecidableEq, Repr

def emptyPrices : Prices := ⟨none, none, none, none, none, none⟩

/-- tier name → price fields (`data_dict[region][sku][product]`). -/
abbrev TierMap := List (String × Prices)

/-- product-series name → tiers (`data_dict[region][sku]`), the
"catalog cell" the PriceResolver iterates. -/
abbrev SeriesMap := List (String × TierMap)

/-- size → series (`data_dict[region]`). -/
abbrev SizeMap := List (String × SeriesMap)

/-- The whole catalog index (`data_dict`). -/
abbrev PricingData := List (String × SizeMap)

/-! ### Reconciler and PriceResolver
Embeds `join_data` (src/azure_vm_cost_comparison.py, lines 335–415). -/

/-- A normalized inventory record as built by `fetch_all_resources`. -/
structure ResourceRecord where
  id : String
  name : String
  location : String
  vmSize : String
  osType : String
deriving DecidableEq, Repr

/-- The default cost record substituted for a resource with no cost
entry (lines 340–347). -/
def defaultCost : CostSummary := ⟨0, 0, 0, 0, 0, true⟩

/-- The default utilization record substituted for a resource with no
utilization entry (lines 362–366). -/
def defaultUtil : UtilEntry := ⟨none, none, "N/A"⟩

/-- A value of one price key of a `JoinedRecord`: `absent` when the
source never assigns the dictionary key at all, `na` for the literal
`"N/A"` marker, `val q` for a number. -/
inductive PField where
  | absent
  | na
  | val (q : ℚ)
deriving DecidableEq, Repr

/-- Python `prices.get(key, "N/A")` on an optional price field. -/
def pGet (o : Option ℚ) : PField :=
  match o with
  | some q => PField.val q
  | none => PField.na

/-- One output record of `join_data` (`temp_dict`). Keys that the
source only conditionally assigns are `Option`s (`none` = key absent)
or `PField.absent`. `avg_cpu` / `peak_cpu` are doubly optional: the
outer layer is key presence, the inner the stored null. -/
structure JoinedRecord where
  name : String
  region : String
  vmSize : String
  osType : String
  total_cost_3m : ℚ
  avg_monthly_cost : ℚ
  one_year_est : ℚ
  three_year_est : ℚ
  is_new : Bool
  avg_cpu : Option (Option ℚ)
  peak_cpu : Option (Option ℚ)
  utilization_status : Option String
  price_payg_hourly : PField
  price_payg_monthly : PField
  price_payg_yearly : PField
  price_1yr_reserved : PField
  price_3yr_reserved : PField
  price_spot_hourly : PField
  price_spot_monthly : PField
  price_low_priority_hourly : PField
  price_low_priority_monthly : PField
deriving DecidableEq, Repr

/-- The body of the candidate-scanning loop of lines 377–381: latch
the first series whose name does not contain "Windows" into the first
component (`linux_series`) and the first whose name does into the
second (`windows_series`). -/
def seriesStep
    (acc : Option (String × TierMap) × Option (String × TierMap))
    (e : String × TierMap) :
    Option (String × TierMap) × Option (String × TierMap) :=
  if !(containsStr e.1 "Windows") && acc.1.isNone then (some e, acc.2)
  else if containsStr e.1 "Windows" && acc.2.isNone then (acc.1, some e)
  else acc

/-- The candidate-scanning loop of lines 374–381: one pass over the
catalog cell in iteration order. -/
def seriesCandidates (cell : SeriesMap) :
    Option (String × TierMap) × Option (String × TierMap) :=
  cell.foldl seriesStep (none, none)

/-- The final series selection of lines 383–388. -/
def selectedSeries (osType : String) (cell : SeriesMap) :
    Option (String × TierMap) :=
  let c := seriesCandidates cell
  if osType == "Linux" && c.1.isSome then c.1
  else if osType == "Windows" && c.2.isSome then c.2
  else c.1.orElse (fun _ => c.2)

/-- First tier whose name contains neither "Spot" nor "Low Priority"
(the standard/reserved loop of lines 393–400). -/
def standardTier (tiers : TierMap) : Option (String × Prices) :=
  tiers.find? (fun e =>
    !(containsStr e.1 "Spot") && !(containsStr e.1 "Low Priority"))

/-- First tier whose name contains "Spot" (lines 402–406). -/
def spotTier (tiers : TierMap) : Option (String × Prices) :=
  tiers.find? (fun e => containsStr e.1 "Spot")

/-- First tier whose name contains "Low Priority" (lines 408–412). -/
def lowPriorityTier (tiers : TierMap) : Option (String × Prices) :=
  tiers.find? (fun e => containsStr e.1 "Low Priority")

/-- The two-level catalog lookup of lines 371–372:
`pricing_data.get(location, {}).get(vmSize, {})`. -/
def cellFor (pricing_data : PricingData) (r : ResourceRecord) : SeriesMap :=
  (lookupA ((lookupA pricing_data r.location).getD []) r.vmSize).getD []

/-- The body of `join_data` for one resource (lines 339–414). -/
def joinOne (cost_info : List (String × CostSummary))
    (pricing_data : PricingData)
    (utilization_data : Option (List (String × UtilEntry)))
    (r : ResourceRecord) : JoinedRecord :=
  let c := (lookupA cost_info r.name.toLower).getD defaultCost
  let uFields :
      Option (Option ℚ) × Option (Option ℚ) × Option String :=
    match utilization_data with
    | some (e :: es) =>
      let u := (lookupA (e :: es) r.name.toLower).getD defaultUtil
      (some u.avg_cpu, some u.peak_cpu, some u.recommendation)
    | _ => (none, none, none)
  let sel := selectedSeries r.osType (cellFor pricing_data r)
  let stdFields : PField × PField × PField × PField × PField :=
    match sel with
    | none => (PField.absent, PField.absent, PField.absent, PField.absent,
               PField.absent)
    | some (_, tiers) =>
      match standardTier tiers with
      | none => (PField.absent, PField.absent, PField.absent, PField.absent,
                 PField.absent)
      | some (_, p) =>
        (pGet p.payg, pGet p.payg1Month, pGet p.payg1Year,
         pGet p.oneYear, pGet p.threeYear)
  let spotFields : PField × PField :=
    match sel with
    | none => (PField.absent, PField.absent)
    | some (_, tiers) =>
      match spotTier tiers with
      | none => (PField.absent, PField.absent)
      | some (_, p) => (pGet p.payg, pGet p.payg1Month)
  let lowpFields : PField × PField :=
    match sel with
    | none => (PField.absent, PField.absent)
    | some (_, tiers) =>
      match lowPriorityTier tiers with
      | none => (PField.absent, PField.absent)
      | some (_, p) => (pGet p.payg, pGet p.payg1Month)
  { name := r.name
    region := r.location
    vmSize := r.vmSize
    osType := r.osType
    total_cost_3m := round2 c.total_cost_3m
    avg_monthly_cost := round2 c.avg_monthly_cost
    one_year_est := round2 c.one_year_est
    three_year_est := round2 c.three_year_est
    is_new := c.is_new
    avg_cpu := uFields.1
    peak_cpu := uFields.2.1
    utilization_status := uFields.2.2
    price_payg_hourly := stdFields.1
    price_payg_monthly := stdFields.2.1
    price_payg_yearly := stdFields.2.2.1
    price_1yr_reserved := stdFields.2.2.2.1
    price_3yr_reserved := stdFields.2.2.2.2
    price_spot_hourly := spotFields.1
    price_spot_monthly := spotFields.2
    price_low_priority_hourly := lowpFields.1
    price_low_priority_monthly := lowpFields.2 }

/-- `join_data`: one joined record per resource, in inventory order. -/
def joinData (resources : List ResourceRecord)
    (cost_info : List (String × CostSummary))
    (pricing_data : PricingData)
    (utilization_data : Option (List (String × UtilEntry))) :
    List JoinedRecord :=
  resources.map (joinOne cost_info pricing_data utilization_data)

/-! ### PriceCatalogFetcher: `format_data` (src/price_sheet.py,
lines 69–118). -/

/-- One raw retail-price row. `type` and `reservationTerm` are read
with `item.get(k, default)`; the other keys with `item.get(k)`.
`retailPrice` is restricted to numeric values (the claims never touch
a non-numeric price). -/
structure PriceItem where
  armRegionName : Option String
  armSkuName : Option String
  productName : Option String
  skuName : Option String
  type : Option String
  retailPrice : Option ℚ
  reservationTerm : Option String
deriving DecidableEq, Repr

/-- Routing of one row into its cell by commitment type
(lines 99–113): `Consumption` fills the on-demand fields (hourly raw;
monthly = hourly × 24 × 31 and yearly = hourly × 24 × 365, both stored
as their 2-decimal rendering); `DevTestConsumption` the dev/test
field; `Reservation` the 1-year or 3-year field selected by the term
label;
anything else leaves the cell as it is. -/
def routeItem (it : PriceItem) (cell : Prices) : Prices :=
  let item_type := it.type.getD ""
  let retail_price := it.retailPrice.getD 0
  match cell with
  | ⟨p, m, y, r1, r3, dt⟩ =>
    if item_type == "Consumption" then
      ⟨some retail_price, some (round2 (retail_price * 24 * 31)),
       some (round2 (retail_price * 24 * 365)), r1, r3, dt⟩
    else if item_type == "DevTestConsumption" then
      ⟨p, m, y, r1, r3, some retail_price⟩
    else if item_type == "Reservation" then
      let term := it.reservationTerm.getD ""
      if term == "1 Year" then ⟨p, m, y, some retail_price, r3, dt⟩
      else if term == "3 Years" then ⟨p, m, y, r1, some retail_price, dt⟩
      else ⟨p, m, y, r1, r3, dt⟩
    else ⟨p, m, y, r1, r3, dt⟩

/-- Reads the (location, size, product, tier) cell of the index. -/
def lookup4 (d : PricingData) (region sku product skuName : String) :
    Option Prices :=
  (lookupA
    ((lookupA ((lookupA d region).getD []) sku).getD []) product).getD []
    |> fun tiers => lookupA tiers skuName

/-- Writes the (location, size, product, tier) cell, creating every
missing intermediate level — exactly what the chain of
`if k not in d: d[k] = {}` statements of lines 86–96 does. -/
def set4 (d : PricingData) (region sku product skuName : String)
    (v : Prices) : PricingData :=
  let sizeMap := (lookupA d region).getD []
  let seriesMap := (lookupA sizeMap sku).getD []
  let tierMap := (lookupA seriesMap product).getD []
  setAssoc d region
    (setAssoc sizeMap sku
      (setAssoc seriesMap product (setAssoc tierMap skuName v)))

/-- Processing of one catalog row by `format_data` (lines 76–116):
a row with a missing or empty location/size/product/tier key is
skipped; otherwise its cell (fresh cells start empty) is rewritten
through `routeItem`. -/
def formatStep (d : PricingData) (it : PriceItem) : PricingData :=
  match it.armRegionName, it.armSkuName, it.productName, it.skuName with
  | some region, some sku, some product, some skuName =>
    if !(region == "") && !(sku == "") && !(product == "") &&
        !(skuName == "") then
      let cell := (lookup4 d region sku product skuName).getD emptyPrices
      set4 d region sku product skuName (routeItem it cell)
    else d
  | _, _, _, _ => d

/-- `format_data` over a full row list. -/
def formatData (items : List PriceItem) : PricingData :=
  items.foldl formatStep []

/-! ### Pagination loops (C7)
Page streams are pure functions `ℕ → Page`; `pages i` is the response
to the `i`-th fetch. The inventory loop of `fetch_all_resources`
(lines 48–62) is a bare `while True` whose only exit is a falsy
continuation token, so its embedding carries an explicit fuel
argument: the value `none` means the fuel ran out with the loop still
running. The cost-data loop (lines 185–200) and the retail-price loop
(src/price_sheet.py, lines 43–66) count pages against `max_pages =
100` starting from `page_count = 1`, so their loop bodies run at most
99 times and structural recursion on the remaining allowance suffices. -/

/-- One inventory response: an item batch and `data.get("$skipToken")`. -/
structure InvPage where
  value : List ℕ
  skipToken : Option String
deriving DecidableEq, Repr

/-- The `while True` pagination loop of `fetch_all_resources`
(lines 48–62). Returns `some results` when the loop `break`s on a
falsy token within `fuel` iterations, `none` when `fuel` iterations
all saw a truthy token (the loop is still running). -/
def fetchAllLoop (pages : ℕ → InvPage) :
    ℕ → ℕ → List ℕ → Option (List ℕ)
  | 0, _, _ => none
  | fuel + 1, idx, results =>
    let data := pages idx
    let results2 := results ++ data.value
    if strTruthy data.skipToken then
      fetchAllLoop pages fuel (idx + 1) results2
    else some results2

/-- One cost-query response page: `properties.rows` and
`properties.nextLink`. -/
structure CostPage where
  rows : List CostRow
  nextLink : Option String

/-- The next-link loop of `fetch_cost_by_resource` (lines 189–200):
`left` is `max_pages - page_count`, the number of loop-body runs still
allowed. Returns the final stats and the number of extra pages
fetched. -/
def costLoopAux (pages : ℕ → CostPage) :
    ℕ → ℕ → Option String → Stats → Stats × ℕ
  | 0, _, _, s => (s, 0)
  | left + 1, idx, next_link, s =>
    if strTruthy next_link then
      let p := pages idx
      let s2 := processRows p.rows s
      let rec2 := costLoopAux pages left (idx + 1) p.nextLink s2
      (rec2.1, rec2.2 + 1)
    else (s, 0)

/-- `fetch_cost_by_resource`'s paging (lines 183–200): process the
first page, then follow next-links with `page_count` starting at 1
against `max_pages = 100`. Returns the stats and the total number of
pages processed. -/
def fetchCostPages (pages : ℕ → CostPage) : Stats × ℕ :=
  let p0 := pages 0
  let s := processRows p0.rows emptyStats
  let rec1 := costLoopAux pages 99 1 p0.nextLink s
  (rec1.1, rec1.2 + 1)

/-- One retail-price response page: `Items` and `NextPageLink`. -/
structure PricePage where
  items : List PriceItem
  nextPageLink : Option String

/-- The next-page loop of `price_sheet.main` (lines 48–61), same
counting scheme as the cost loop; accumulates the item batches. -/
def priceLoopAux (pages : ℕ → PricePage) :
    ℕ → ℕ → Option String → List PriceItem → List PriceItem × ℕ
  | 0, _, _, acc => (acc, 0)
  | left + 1, idx, next_page, acc =>
    if strTruthy next_page then
      let p := pages idx
      let rec2 := priceLoopAux pages left (idx + 1) p.nextPageLink
        (acc ++ p.items)
      (rec2.1, rec2.2 + 1)
    else (acc, 0)

/-- `price_sheet.main`'s paging (lines 42–66): first page, then the
capped next-page loop, then the truncation warning of lines 63–64,
emitted iff the final `page_count` reached `max_pages`. Returns the
accumulated rows, the number of pages processed, and whether the
warning was printed. -/
def priceFetch (pages : ℕ → PricePage) : List PriceItem × ℕ × Bool :=
  let p0 := pages 0
  let rec1 := priceLoopAux pages 99 1 p0.nextPageLink p0.items
  (rec1.1, rec1.2 + 1, decide (rec1.2 + 1 ≥ 100))

/-! ### Helper lemmas -/

lemma seriesFold_fst_some (cell : SeriesMap) :
    ∀ (acc : Option (String × TierMap) × Option (String × TierMap))
      (x : String × TierMap), acc.1 = some x →
      (cell.foldl seriesStep acc).1 = some x := by
  induction cell with
  | nil => intro acc x h; simpa using h
  | cons e t ih =>
    intro acc x h
    simp only [List.foldl_cons]
    apply ih
    simp only [seriesStep, h, Option.isNone_some, Bool.and_false, if_false]
    by_cases hw : containsStr e.1 "Windows" = true
    · simp only [hw, Bool.true_and]
      by_cases hn : acc.2.isNone = true
      · simp [hn, h]
      · simp [hn, h]
    · simp only [Bool.not_eq_true] at hw
      simp [hw, h]

lemma seriesFold_snd_some (cell : SeriesMap) :
    ∀ (acc : Option (String × TierMap) × Option (String × TierMap))
      (x : String × TierMap), acc.2 = some x →
      (cell.foldl seriesStep acc).2 = some x := by
  induction cell with
  | nil => intro acc x h; simpa using h
  | cons e t ih =>
    intro acc x h
    simp only [List.foldl_cons]
    apply ih
    simp only [seriesStep, h, Option.isNone_some, Bool.and_false, if_false]
    by_cases hw : containsStr e.1 "Windows" = true
    · simp [hw, h]
    · simp only [Bool.not_eq_true] at hw
      simp only [hw, Bool.not_false, Bool.true_and]
      by_cases hn : acc.1.isNone = true
      · simp [hn, h]
      · simp [hn, h]

lemma seriesFold_fst_none (cell : SeriesMap) :
    ∀ (acc : Option (String × TierMap) × Option (String × TierMap)),
      acc.1 = none →
      (cell.foldl seriesStep acc).1
        = cell.find? (fun e => !(containsStr e.1 "Windows")) := by
  induction cell with
  | nil => intro acc h; simpa using h
  | cons e t ih =>
    intro acc h
    simp only [List.foldl_cons, List.find?]
    by_cases hw : containsStr e.1 "Windows" = true
    · simp only [hw, Bool.not_true]
      have hstep : (seriesStep acc e).1 = none := by
        simp only [seriesStep, hw, Bool.not_true, Bool.false_and, if_false]
        by_cases hn : acc.2.isNone = true
        · simp [hn, h]
        · simp [hn, h]
      exact ih _ hstep
    · simp only [Bool.not_eq_true] at hw
      have hstep : (seriesStep acc e).1 = some e := by
        simp [seriesStep, hw, h]
      simp only [hw, Bool.not_false]
      exact seriesFold_fst_some t _ e hstep

lemma seriesFold_snd_none (cell : SeriesMap) :
    ∀ (acc : Option (String × TierMap) × Option (String × TierMap)),
      acc.2 = none →
      (cell.foldl seriesStep acc).2
        = cell.find? (fun e => containsStr e.1 "Windows") := by
  induction cell with
  | nil => intro acc h; simpa using h
  | cons e t ih =>
    intro acc h
    simp only [List.foldl_cons, List.find?]
    by_cases hw : containsStr e.1 "Windows" = true
    · have hstep : (seriesStep acc e).2 = some e := by
        simp only [seriesStep, hw, Bool.not_true, Bool.false_and, if_false]
        simp [h]
      simp only [hw]
      exact seriesFold_snd_some t _ e hstep
    · simp only [Bool.not_eq_true] at hw
      have hstep : (seriesStep acc e).2 = none := by
        simp only [seriesStep, hw, Bool.not_false, Bool.true_and,
          Bool.false_and, if_false]
        by_cases hn : acc.1.isNone = true
        · simp [hn, h]
        · simp [hn, h]
      simp only [hw]
      exact ih _ hstep

lemma seriesCandidates_fst (cell : SeriesMap) :
    (seriesCandidates cell).1
      = cell.find? (fun e => !(containsStr e.1 "Windows")) :=
  seriesFold_fst_none cell (none, none) rfl

lemma seriesCandidates_snd (cell : SeriesMap) :
    (seriesCandidates cell).2
      = cell.find? (fun e => containsStr e.1 "Windows") :=
  seriesFold_snd_none cell (none, none) rfl

lemma lookupA_setAssoc_self {β : Type} (l : List (String × β))
    (k : String) (v : β) : lookupA (setAssoc l k v) k = some v := by
  induction l with
  | nil => simp [setAssoc, lookupA, List.find?]
  | cons e t ih =>
    by_cases h : e.1 == k
    · simp [setAssoc, lookupA, List.find?, h]
    · simp only [setAssoc, h, if_false]
      simp only [lookupA, List.find?, h]
      exact ih

lemma pGet_ne_absent (o : Option ℚ) : pGet o ≠ PField.absent := by
  cases o <;> simp [pGet]

lemma processRow_apply (s : Stats) (row : CostRow) (rid : String) :
    processRow s row rid
      = ((s rid).1 + rowContribution rid row,
         (s rid).2 + (if rowActive rid row then 1 else 0)) := by
  unfold processRow rowContribution rowActive
  cases h : rowRid row with
  | none => simp [h]
  | some rid2 =>
    simp only [h]
    by_cases he : rid = rid2
    · subst he
      simp only [if_pos rfl, beq_self_eq_true, Bool.true_and]
      by_cases hc : rowCostVal row > 0
      · simp [hc]
      · simp [hc]
    · have hne : ¬((some rid2 : Option String) == some rid) = true := by
        simp [beq_iff_eq]
        exact fun hh => he hh.symm
      simp only [if_neg he]
      simp only [hne, Bool.false_and, if_false]
      have : (some rid2 = some rid) = False := by
        simp
        exact fun hh => he hh.symm
      simp [this]

lemma processRows_apply (rows : List CostRow) :
    ∀ (s : Stats) (rid : String),
      processRows rows s rid
        = ((s rid).1 + (rows.map (rowContribution rid)).sum,
           (s rid).2 + rows.countP (rowActive rid)) := by
  induction rows with
  | nil => intro s rid; simp [processRows]
  | cons row t ih =>
    intro s rid
    simp only [processRows, List.foldl_cons] at ih ⊢
    rw [ih, processRow_apply]
    simp only [List.map_cons, List.sum_cons, List.countP_cons]
    rw [Prod.mk.injEq]
    constructor
    · ring
    · by_cases ha : rowActive rid row = true
      · simp only [ha, if_true]; omega
      · simp only [ha, Bool.false_eq_true, if_false]; omega

lemma processRows_perm {rows rows2 : List CostRow}
    (h : rows.Perm rows2) (s : Stats) :
    processRows rows s = processRows rows2 s := by
  funext k
  rw [processRows_apply, processRows_apply]
  have hsum : ((rows.map (rowContribution k)).sum : ℚ)
      = (rows2.map (rowContribution k)).sum :=
    List.Perm.sum_eq (List.Perm.map _ h)
  have hcount : rows.countP (rowActive k) = rows2.countP (rowActive k) :=
    List.Perm.countP_eq _ h
  rw [hsum, hcount]

lemma utilLoopAux_append (xs ys : List (VMRef × FetchOutcome)) :
    ∀ (acc : List (String × UtilEntry)),
      (∀ e ∈ xs, triggers429 e = false) →
      utilLoopAux acc (xs ++ ys) = utilLoopAux (utilLoopAux acc xs) ys := by
  induction xs with
  | nil => intro acc _; simp [utilLoopAux]
  | cons e t ih =>
    intro acc h
    have he : triggers429 e = false := h e (by simp)
    have ht : ∀ e2 ∈ t, triggers429 e2 = false := by
      intro e2 h2; exact h e2 (by simp [h2])
    obtain ⟨vm, out⟩ := e
    simp only [List.cons_append, utilLoopAux]
    by_cases hid : (vm.id == "") = true
    · simp only [hid, if_true]
      exact ih _ ht
    · simp only [Bool.not_eq_true] at hid
      simp only [hid, Bool.false_eq_true, if_false]
      cases out with
      | ok p => exact ih _ ht
      | timeout => exact ih _ ht
      | exc => exact ih _ ht
      | httpErr s =>
        have hs : (s == 429) = false := by
          simp only [triggers429, hid, Bool.not_false, Bool.true_and] at he
          exact he
        simp only [hs, Bool.false_eq_true, if_false]
        exact ih _ ht

lemma costLoopAux_le (pages : ℕ → CostPage) :
    ∀ (left idx : ℕ) (nl : Option String) (s : Stats),
      (costLoopAux pages left idx nl s).2 ≤ left := by
  intro left
  induction left with
  | zero => intro idx nl s; simp [costLoopAux]
  | succ n ih =>
    intro idx nl s
    simp only [costLoopAux]
    by_cases h : strTruthy nl = true
    · simp only [h, if_true]
      have := ih (idx + 1) ((pages idx).nextLink)
        (processRows (pages idx).rows s)
      omega
    · simp only [Bool.not_eq_true] at h
      simp [h]

lemma priceLoopAux_le (pages : ℕ → PricePage) :
    ∀ (left idx : ℕ) (np : Option String) (acc : List PriceItem),
      (priceLoopAux pages left idx np acc).2 ≤ left := by
  intro left
  induction left with
  | zero => intro idx np acc; simp [priceLoopAux]
  | succ n ih =>
    intro idx np acc
    simp only [priceLoopAux]
    by_cases h : strTruthy np = true
    · simp only [h, if_true]
      have := ih (idx + 1) ((pages idx).nextPageLink) (acc ++ (pages idx).items)
      omega
    · simp only [Bool.not_eq_true] at h
      simp [h]

lemma fetchAllLoop_always_token (pages : ℕ → InvPage)
    (h : ∀ i, strTruthy (pages i).skipToken = true) :
    ∀ (fuel idx : ℕ) (acc : List ℕ),
      fetchAllLoop pages fuel idx acc = none := by
  intro fuel
  induction fuel with
  | zero => intro idx acc; rfl
  | succ n ih =>
    intro idx acc
    simp only [fetchAllLoop, h idx, if_true]
    exact ih (idx + 1) _

lemma lookup4_set4 (d : PricingData) (region sku product skuName : String)
    (v : Prices) :
    lookup4 (set4 d region sku product skuName v) region sku product skuName
      = some v := by
  unfold lookup4 set4
  rw [lookupA_setAssoc_self]
  simp only [Option.getD_some]
  rw [lookupA_setAssoc_self]
  simp only [Option.getD_some]
  rw [lookupA_setAssoc_self]
  simp only [Option.getD_some]
  rw [lookupA_setAssoc_self]

/-! ### Claim theorems -/

/-- C1: `join_data` returns exactly one `JoinedRecord` per
`ResourceRecord`, in the original inventory order, for every cost map,
pricing index and utilization map; it is total by construction (the
Lean embedding is a plain `List.map`, mirroring the source loop whose
every iteration appends exactly one record), so records with no
matching cost/utilization entry or no catalog cell are still emitted. -/
theorem c1_reconciler_completeness (resources : List ResourceRecord)
    (cost_info : List (String × CostSummary)) (pricing_data : PricingData)
    (utilization_data : Option (List (String × UtilEntry))) :
    (joinData resources cost_info pricing_data utilization_data).length
        = resources.length ∧
    (joinData resources cost_info pricing_data utilization_data).map
        (fun j => j.name)
      = resources.map (fun r => r.name) := by
  constructor
  · simp [joinData]
  · simp only [joinData, List.map_map]
    rfl

/-- C4: the derived `CostSummary` satisfies
`avgMonthlyCost = totalCost90d / 3`, `oneYearEstimate = avg × 12`,
`threeYearEstimate = avg × 36`, `isNew ↔ activeDays < 90`, and the
concrete instance `totalCost90d = 300` yields 100 / 1200 / 3600. -/
theorem c4_cost_summary_projections (T : ℚ) (d : ℕ) :
    (costSummaryOf T d).avg_monthly_cost = T / 3 ∧
    (costSummaryOf T d).one_year_est = T / 3 * 12 ∧
    (costSummaryOf T d).three_year_est = T / 3 * 36 ∧
    ((costSummaryOf T d).is_new = true ↔ d < 90) ∧
    (costSummaryOf 300 d).avg_monthly_cost = 100 ∧
    (costSummaryOf 300 d).one_year_est = 1200 ∧
    (costSummaryOf 300 d).three_year_est = 3600 := by
  unfold costSummaryOf
  refine ⟨rfl, rfl, rfl, ?_, by norm_num, by norm_num, by norm_num⟩
  simp

/-- C5: the per-resource total accumulated by `process_rows` equals
the sum of that resource's numeric per-day costs, the active-day count
equals the number of its rows with cost strictly greater than 0, the
result is invariant under reordering of the rows, and processing is
compatible with any split of the rows into pages (a short row, or one
with a non-numeric cost cell, contributes 0 and no active day —
`rowContribution` / `rowActive` are 0 / false there). The `RowWF`
hypothesis excludes rows of length ≥ 3 with a non-string id cell,
on which the source raises an uncaught `AttributeError`. -/
theorem c5_cost_row_aggregation (rows rows2 : List CostRow) (s : Stats)
    (rid : String) (hwf : ∀ r ∈ rows, RowWF r) (hperm : rows.Perm rows2) :
    (processRows rows s rid).1
        = (s rid).1 + (rows.map (rowContribution rid)).sum ∧
    (processRows rows s rid).2
        = (s rid).2 + rows.countP (rowActive rid) ∧
    processRows rows s = processRows rows2 s ∧
    (∀ (p1 p2 : List CostRow) (t : Stats),
        processRows (p1 ++ p2) t = processRows p2 (processRows p1 t)) := by
  refine ⟨?_, ?_, processRows_perm hperm s, ?_⟩
  · rw [processRows_apply]
  · rw [processRows_apply]
  · intro p1 p2 t
    simp [processRows, List.foldl_append]

theorem c5_cost_row_aggregation_witness :
    (∀ r ∈ [[CellVal.num 5, CellVal.null, CellVal.str "/a/VM1"],
            [CellVal.str "x", CellVal.null, CellVal.str "/b/vm1"],
            [CellVal.num 7]], RowWF r) ∧
    List.Perm
      [[CellVal.num 5, CellVal.null, CellVal.str "/a/VM1"],
       [CellVal.str "x", CellVal.null, CellVal.str "/b/vm1"],
       [CellVal.num 7]]
      [[CellVal.num 7],
       [CellVal.num 5, CellVal.null, CellVal.str "/a/VM1"],
       [CellVal.str "x", CellVal.null, CellVal.str "/b/vm1"]] ∧
    (processRows [[CellVal.num 5, CellVal.null, CellVal.str "/a/VM1"],
                  [CellVal.str "x", CellVal.null, CellVal.str "/b/vm1"],
                  [CellVal.num 7]] emptyStats "vm1").1
      = (emptyStats "vm1").1
        + ([[CellVal.num 5, CellVal.null, CellVal.str "/a/VM1"],
            [CellVal.str "x", CellVal.null, CellVal.str "/b/vm1"],
            [CellVal.num 7]].map (rowContribution "vm1")).sum :=
  ⟨by decide, by decide,
    (c5_cost_row_aggregation
      [[CellVal.num 5, CellVal.null, CellVal.str "/a/VM1"],
       [CellVal.str "x", CellVal.null, CellVal.str "/b/vm1"],
       [CellVal.num 7]]
      [[CellVal.num 7],
       [CellVal.num 5, CellVal.null, CellVal.str "/a/VM1"],
       [CellVal.str "x", CellVal.null, CellVal.str "/b/vm1"]]
      emptyStats "vm1" (by decide) (by decide)).1⟩

/-- C6: the utilization classification is a pure function of the pair
(mean of the non-null average samples, maximum of the non-null maximum
samples — with the mean substituted when there are no maximum
samples), evaluated in the source's precedence order; no average
samples yield the "No data points" (unavailable) entry even when
maximum samples exist, and the four concrete threshold instances hold
((5,20) very-low, (15,40) low, (75,50) high, (50,60) normal). -/
theorem c6_utilization_classification (pts : List DataPoint) :
    (avgSamples pts = [] →
        sampleFromPoints pts = ⟨none, none, "No data points"⟩) ∧
    (avgSamples pts ≠ [] →
        (sampleFromPoints pts).recommendation
          = classify (meanOf (avgSamples pts))
              (if maxSamples pts = [] then meanOf (avgSamples pts)
               else listMax (maxSamples pts))) ∧
    classify 5 20 = "⚠️ Very low utilization" ∧
    classify 15 40 = "⚠️ Low utilization" ∧
    classify 75 50 = "⚡ High utilization" ∧
    classify 50 60 = "✓ Normal" := by
  refine ⟨?_, ?_, ?_, ?_, ?_, ?_⟩
  · intro h
    simp [sampleFromPoints, h]
  · intro h
    simp [sampleFromPoints, h, meanOf]
  · norm_num [classify]
  · norm_num [classify]
  · norm_num [classify]
  · norm_num [classify]

theorem c6_utilization_classification_witness :
    (avgSamples [⟨some 5, some 20⟩] ≠ []) ∧
    (sampleFromPoints [⟨some 5, some 20⟩]).recommendation
      = classify (meanOf (avgSamples [⟨some 5, some 20⟩]))
          (if maxSamples [⟨some 5, some 20⟩] = []
           then meanOf (avgSamples [⟨some 5, some 20⟩])
           else listMax (maxSamples [⟨some 5, some 20⟩])) :=
  ⟨by decide, (c6_utilization_classification [⟨some 5, some 20⟩]).2.1
    (by decide)⟩

/-- C10: when a metric series has at least one non-null average sample
but no non-null maximum samples, the sampler substitutes the mean of
the averages for the peak, and the classification is computed from
that substituted value. -/
theorem c10_peak_falls_back_to_mean (pts : List DataPoint)
    (ha : avgSamples pts ≠ []) (hm : maxSamples pts = []) :
    (sampleFromPoints pts).avg_cpu
        = some (round1 (meanOf (avgSamples pts))) ∧
    (sampleFromPoints pts).peak_cpu
        = some (round1 (meanOf (avgSamples pts))) ∧
    (sampleFromPoints pts).recommendation
        = classify (meanOf (avgSamples pts)) (meanOf (avgSamples pts)) := by
  refine ⟨?_, ?_, ?_⟩ <;> simp [sampleFromPoints, ha, hm, meanOf]

theorem c10_peak_falls_back_to_mean_witness :
    (avgSamples [⟨some 5, none⟩, ⟨some 15, none⟩] ≠ []) ∧
    (maxSamples [⟨some 5, none⟩, ⟨some 15, none⟩] = []) ∧
    (sampleFromPoints [⟨some 5, none⟩, ⟨some 15, none⟩]).peak_cpu
      = some (round1 (meanOf (avgSamples [⟨some 5, none⟩, ⟨some 15, none⟩]))) :=
  ⟨by decide, by decide,
    (c10_peak_falls_back_to_mean [⟨some 5, none⟩, ⟨some 15, none⟩]
      (by decide) (by decide)).2.1⟩

/-- C2: the candidate scan picks the first series name in catalog
iteration order not containing "Windows" as the Linux candidate and
the first containing "Windows" as the Windows candidate; the final
selection gives a Windows-typed resource the Windows candidate
whenever one exists (also when a non-Windows series appears first),
a Linux-typed resource the Linux candidate whenever one exists, and
any other case the Linux candidate if present, else the Windows one —
including the spec's fixture with the Linux series listed first. -/
theorem c2_series_selection (cell : SeriesMap) (os : String) :
    (seriesCandidates cell).1
        = cell.find? (fun e => !(containsStr e.1 "Windows")) ∧
    (seriesCandidates cell).2
        = cell.find? (fun e => containsStr e.1 "Windows") ∧
    (∀ x, os = "Windows" → (seriesCandidates cell).2 = some x →
        selectedSeries os cell = some x) ∧
    (∀ x, os = "Linux" → (seriesCandidates cell).1 = some x →
        selectedSeries os cell = some x) ∧
    (¬(os = "Linux" ∧ (seriesCandidates cell).1.isSome = true) →
     ¬(os = "Windows" ∧ (seriesCandidates cell).2.isSome = true) →
        selectedSeries os cell
          = ((seriesCandidates cell).1).orElse
              (fun _ => (seriesCandidates cell).2)) ∧
    selectedSeries "Windows"
        [("Standard_D2_v3", []), ("Standard_D2_v3 Windows", [])]
      = some ("Standard_D2_v3 Windows", []) := by
  refine ⟨seriesCandidates_fst cell, seriesCandidates_snd cell, ?_, ?_, ?_,
    by decide⟩
  · intro x hos hx
    unfold selectedSeries
    simp only [hos, hx]
    by_cases hL : ("Windows" == "Linux") = true &&
        (seriesCandidates cell).1.isSome = true
    · simp at hL
    · simp
  · intro x hos hx
    unfold selectedSeries
    simp only [hos, hx]
    simp
  · intro hL hW
    unfold selectedSeries
    by_cases h1 : (os == "Linux") = true
    · simp only [beq_iff_eq] at h1
      have : (seriesCandidates cell).1.isSome = false := by
        rcases h : (seriesCandidates cell).1.isSome with _ | _
        · rfl
        · exact absurd ⟨h1, h⟩ hL
      simp [h1, this]
    · simp only [h1, Bool.false_and, Bool.false_eq_true, if_false]
      by_cases h2 : (os == "Windows") = true
      · simp only [beq_iff_eq] at h2
        have : (seriesCandidates cell).2.isSome = false := by
          rcases h : (seriesCandidates cell).2.isSome with _ | _
          · rfl
          · exact absurd ⟨h2, h⟩ hW
        simp [h2, this]
      · simp [h2]

theorem c2_series_selection_witness :
    ((seriesCandidates
        [("Standard_D2_v3", []), ("Standard_D2_v3 Windows", [])]).2
      = some ("Standard_D2_v3 Windows", [])) ∧
    selectedSeries "Windows"
        [("Standard_D2_v3", []), ("Standard_D2_v3 Windows", [])]
      = some ("Standard_D2_v3 Windows", []) :=
  ⟨by decide,
    (c2_series_selection
      [("Standard_D2_v3", []), ("Standard_D2_v3 Windows", [])]
      "Windows").2.2.1 ("Standard_D2_v3 Windows", []) rfl (by decide)⟩

/-- C8: during the utilization sampling loop, an HTTP 429 for a
(non-skipped) resource abandons sampling for it and every later
resource while keeping the accumulator built from the earlier ones,
whereas a timeout, another HTTP error, or an exception records the
"Timeout" / "Error" entry for that resource only and the loop
continues through the remaining resources. -/
theorem c8_rate_limit_aborts_rest (acc : List (String × UtilEntry))
    (xs ys : List (VMRef × FetchOutcome)) (vm : VMRef)
    (hid : (vm.id == "") = false)
    (hxs : ∀ e ∈ xs, triggers429 e = false) :
    utilLoopAux acc (xs ++ (vm, FetchOutcome.httpErr 429) :: ys)
        = utilLoopAux acc xs ∧
    (∀ (out : FetchOutcome) (entry : UtilEntry),
        errEntryOf out = some entry →
        utilLoopAux acc (xs ++ (vm, out) :: ys)
          = utilLoopAux
              (setAssoc (utilLoopAux acc xs) vm.name.toLower entry) ys) := by
  constructor
  · rw [utilLoopAux_append xs _ acc hxs]
    simp [utilLoopAux, hid]
  · intro out entry hout
    rw [utilLoopAux_append xs _ acc hxs]
    cases out with
    | ok p => simp [errEntryOf] at hout
    | timeout =>
      simp only [errEntryOf, Option.some.injEq] at hout
      subst hout
      simp [utilLoopAux, hid]
    | exc =>
      simp only [errEntryOf, Option.some.injEq] at hout
      subst hout
      simp [utilLoopAux, hid]
    | httpErr s =>
      by_cases hs : (s == 429) = true
      · simp [errEntryOf, hs] at hout
      · simp only [Bool.not_eq_true] at hs
        simp only [errEntryOf, hs, Bool.false_eq_true, if_false,
          Option.some.injEq] at hout
        subst hout
        simp [utilLoopAux, hid, hs]

theorem c8_rate_limit_aborts_rest_witness :
    (((⟨"id2", "B"⟩ : VMRef).id == "") = false) ∧
    (∀ e ∈ [((⟨"id1", "A"⟩ : VMRef), FetchOutcome.timeout)],
        triggers429 e = false) ∧
    utilLoopAux []
        ([((⟨"id1", "A"⟩ : VMRef), FetchOutcome.timeout)]
          ++ ((⟨"id2", "B"⟩ : VMRef), FetchOutcome.httpErr 429)
            :: [((⟨"id3", "C"⟩ : VMRef), FetchOutcome.exc)])
      = utilLoopAux [] [((⟨"id1", "A"⟩ : VMRef), FetchOutcome.timeout)] :=
  ⟨by decide, by decide,
    (c8_rate_limit_aborts_rest []
      [((⟨"id1", "A"⟩ : VMRef), FetchOutcome.timeout)]
      [((⟨"id3", "C"⟩ : VMRef), FetchOutcome.exc)]
      ⟨"id2", "B"⟩ (by decide) (by decide)).1⟩

lemma costLoopAux_stop (pages : ℕ → CostPage) (left idx : ℕ)
    (nl : Option String) (s : Stats) (h : strTruthy nl = false) :
    costLoopAux pages left idx nl s = (s, 0) := by
  cases left with
  | zero => rfl
  | succ n => simp [costLoopAux, h]

/-- C7 (amended): the cost-data and retail-price pagination loops stop
when the next link is falsy and process at most 100 pages in total;
the retail-price fetcher emits its truncation warning exactly when its
final page count reaches the cap; but the inventory fetch loop has no
page cap at all — on a stream whose every page carries a continuation
token it runs forever (for every fuel bound it is still running), and
it terminates precisely on a falsy token. -/
theorem c7_pagination_caps :
    (∀ (pages : ℕ → InvPage),
        (∀ i, strTruthy (pages i).skipToken = true) →
        ∀ (fuel idx : ℕ) (acc : List ℕ),
          fetchAllLoop pages fuel idx acc = none) ∧
    (∀ (pages : ℕ → InvPage) (fuel idx : ℕ) (acc : List ℕ),
        strTruthy (pages idx).skipToken = false →
        fetchAllLoop pages (fuel + 1) idx acc
          = some (acc ++ (pages idx).value)) ∧
    (∀ (pages : ℕ → CostPage), (fetchCostPages pages).2 ≤ 100) ∧
    (∀ (pages : ℕ → CostPage),
        strTruthy (pages 0).nextLink = false →
        (fetchCostPages pages).2 = 1) ∧
    (∀ (pages : ℕ → PricePage),
        (priceFetch pages).2.1 ≤ 100 ∧
        ((priceFetch pages).2.2 = true ↔ (priceFetch pages).2.1 = 100)) := by
  refine ⟨fetchAllLoop_always_token, ?_, ?_, ?_, ?_⟩
  · intro pages fuel idx acc h
    simp [fetchAllLoop, h]
  · intro pages
    have := costLoopAux_le pages 99 1 ((pages 0).nextLink)
      (processRows (pages 0).rows emptyStats)
    simp only [fetchCostPages]
    omega
  · intro pages h
    simp [fetchCostPages, costLoopAux_stop pages 99 1 _ _ h]
  · intro pages
    have := priceLoopAux_le pages 99 1 ((pages 0).nextPageLink)
      ((pages 0).items)
    simp only [priceFetch, decide_eq_true_eq]
    omega

theorem c7_pagination_caps_witness :
    (∀ i, strTruthy (((fun _ => ⟨[], some "token"⟩) : ℕ → InvPage) i).skipToken
        = true) ∧
    fetchAllLoop (fun _ => ⟨[], some "token"⟩) 5 0 [] = none :=
  ⟨fun _ => rfl,
    c7_pagination_caps.1 (fun _ => ⟨[], some "token"⟩)
      (fun _ => rfl) 5 0 []⟩

/-- C7 fails as stated: the inventory pagination loop of
`fetch_all_resources` is `while True` with no page cap — on a page
stream that always returns a continuation token it is still running
after 150 fetched pages, well past the claimed 100-page cap (the cap
exists only in the cost-data and retail-price loops, and only the
retail-price loop prints a truncation warning). -/
theorem c7_counterexample :
    fetchAllLoop (fun _ => ⟨[], some "token"⟩) 150 0 [] = none ∧
    100 < 150 := by
  constructor
  · set_option maxRecDepth 4000 in decide
  · norm_num

/-- C9 (amended): a catalog row with all four of location, size,
product, and tier present is routed into its (possibly freshly
created) cell by commitment type — "Consumption" sets the on-demand
hourly price and monthly/yearly equivalents equal to hourly × 24 × 31
and hourly × 24 × 365 each rounded to 2 decimal places (the source
stores their `"%.2f"` rendering), "DevTestConsumption" the dev/test
field, "Reservation" the 1-year or 3-year field per the term label,
any other type leaves the cell content unchanged — while a row with a
missing (or empty) key among the four is skipped without touching the
index. -/
theorem c9_catalog_routing (d : PricingData) (it : PriceItem)
    (cell : Prices) :
    (∀ region sku product skuName,
        it.armRegionName = some region → it.armSkuName = some sku →
        it.productName = some product → it.skuName = some skuName →
        region ≠ "" → sku ≠ "" → product ≠ "" → skuName ≠ "" →
        lookup4 (formatStep d it) region sku product skuName
          = some (routeItem it
              ((lookup4 d region sku product skuName).getD emptyPrices))) ∧
    (strTruthy it.armRegionName = false ∨ strTruthy it.armSkuName = false ∨
     strTruthy it.productName = false ∨ strTruthy it.skuName = false →
        formatStep d it = d) ∧
    (it.type.getD "" = "Consumption" →
        routeItem it cell
          = ⟨some (it.retailPrice.getD 0),
             some (round2 (it.retailPrice.getD 0 * 24 * 31)),
             some (round2 (it.retailPrice.getD 0 * 24 * 365)),
             cell.oneYear, cell.threeYear, cell.devtest⟩) ∧
    (it.type.getD "" = "DevTestConsumption" →
        routeItem it cell
          = ⟨cell.payg, cell.payg1Month, cell.payg1Year, cell.oneYear,
             cell.threeYear, some (it.retailPrice.getD 0)⟩) ∧
    (it.type.getD "" = "Reservation" →
        it.reservationTerm.getD "" = "1 Year" →
        routeItem it cell
          = ⟨cell.payg, cell.payg1Month, cell.payg1Year,
             some (it.retailPrice.getD 0), cell.threeYear, cell.devtest⟩) ∧
    (it.type.getD "" = "Reservation" →
        it.reservationTerm.getD "" = "3 Years" →
        routeItem it cell
          = ⟨cell.payg, cell.payg1Month, cell.payg1Year, cell.oneYear,
             some (it.retailPrice.getD 0), cell.devtest⟩) ∧
    (it.type.getD "" ≠ "Consumption" →
     it.type.getD "" ≠ "DevTestConsumption" →
     it.type.getD "" ≠ "Reservation" →
        routeItem it cell = cell) := by
  refine ⟨?_, ?_, ?_, ?_, ?_, ?_, ?_⟩
  · intro region sku product skuName h1 h2 h3 h4 n1 n2 n3 n4
    simp only [formatStep, h1, h2, h3, h4]
    have e1 : (region == "") = false := by simp [n1]
    have e2 : (sku == "") = false := by simp [n2]
    have e3 : (product == "") = false := by simp [n3]
    have e4 : (skuName == "") = false := by simp [n4]
    simp only [e1, e2, e3, e4, Bool.not_false, Bool.and_self, if_true]
    exact lookup4_set4 d region sku product skuName _
  · intro h
    obtain ⟨oR, oS, oP, oT, ty, rp, tm⟩ := it
    simp only [formatStep]
    cases oR with
    | none => rfl
    | some region =>
      cases oS with
      | none => rfl
      | some sku =>
        cases oP with
        | none => rfl
        | some product =>
          cases oT with
          | none => rfl
          | some skuName =>
            simp only [strTruthy] at h
            have : (!(region == "") && !(sku == "") && !(product == "")
                && !(skuName == "")) = false := by
              rcases h with h | h | h | h <;> simp_all
            simp [this]
  · intro h
    obtain ⟨p, m, y, r1, r3, dt⟩ := cell
    simp [routeItem, h]
  · intro h
    obtain ⟨p, m, y, r1, r3, dt⟩ := cell
    simp [routeItem, h]
  · intro h ht
    obtain ⟨p, m, y, r1, r3, dt⟩ := cell
    simp [routeItem, h, ht]
  · intro h ht
    obtain ⟨p, m, y, r1, r3, dt⟩ := cell
    simp [routeItem, h, ht]
  · intro h1 h2 h3
    obtain ⟨p, m, y, r1, r3, dt⟩ := cell
    have e1 : (it.type.getD "" == "Consumption") = false := by simp [h1]
    have e2 : (it.type.getD "" == "DevTestConsumption") = false := by
      simp [h2]
    have e3 : (it.type.getD "" == "Reservation") = false := by simp [h3]
    simp [routeItem, e1, e2, e3]

theorem c9_catalog_routing_witness :
    ((⟨some "eastus", some "D2", some "P", some "T", some "Consumption",
        some 2, none⟩ : PriceItem).type.getD "" = "Consumption") ∧
    routeItem
        ⟨some "eastus", some "D2", some "P", some "T", some "Consumption",
          some 2, none⟩ emptyPrices
      = ⟨some 2, some (round2 (2 * 24 * 31)), some (round2 (2 * 24 * 365)),
         emptyPrices.oneYear, emptyPrices.threeYear, emptyPrices.devtest⟩ :=
  ⟨rfl, (c9_catalog_routing []
    ⟨some "eastus", some "D2", some "P", some "T", some "Consumption",
      some 2, none⟩ emptyPrices).2.2.1 rfl⟩

/-- C9 fails as stated on the monthly/yearly equivalents: for an
hourly retail price of 0.001 the source stores
`f"{0.001 * 24 * 31:.2f}" = "0.74"`, i.e. 37/50, while
hourly × 24 × 31 = 0.744 — the stored monthly equivalent is the
product rounded to 2 decimal places, not the exact product. -/
theorem c9_counterexample :
    ((lookup4 (formatData
        [⟨some "eastus", some "Standard_D2s_v3", some "P", some "T",
          some "Consumption", some (1/1000), none⟩])
        "eastus" "Standard_D2s_v3" "P" "T").map (fun c => c.payg1Month))
      = some (some (37/50)) ∧
    (37 : ℚ)/50 ≠ (1 : ℚ)/1000 * 24 * 31 := by
  constructor
  · simp only [formatData, formatStep, List.foldl_cons, List.foldl_nil,
      lookup4, set4, setAssoc, lookupA, List.find?, routeItem, emptyPrices]
    norm_num [round2]
  · norm_num

/-- C3 (amended): the "N/A" marker appears on a price field exactly
when a series was selected and the purpose's first matching tier
exists but its price map lacks the key (`pGet` never yields `absent`);
when no series is selected, or the chosen series has no tier matching
a purpose, the corresponding keys are omitted from the record
entirely; the utilization fields (with the classification defaulting
to "N/A" for a resource missing from the map) are present exactly
when the utilization map is non-empty, and omitted when it is `None`
or empty. -/
theorem c3_degraded_field_presence
    (cost_info : List (String × CostSummary)) (pricing_data : PricingData)
    (u : Option (List (String × UtilEntry))) (r : ResourceRecord) :
    (∀ e es, u = some (e :: es) →
        (joinOne cost_info pricing_data u r).utilization_status
          = some (((lookupA (e :: es) r.name.toLower).getD
              defaultUtil).recommendation)) ∧
    (u = none →
        (joinOne cost_info pricing_data u r).utilization_status = none) ∧
    (u = some [] →
        (joinOne cost_info pricing_data u r).utilization_status = none) ∧
    (selectedSeries r.osType (cellFor pricing_data r) = none →
        (joinOne cost_info pricing_data u r).price_payg_hourly
            = PField.absent ∧
        (joinOne cost_info pricing_data u r).price_spot_hourly
            = PField.absent ∧
        (joinOne cost_info pricing_data u r).price_low_priority_hourly
            = PField.absent) ∧
    (∀ pn tiers, selectedSeries r.osType (cellFor pricing_data r)
          = some (pn, tiers) →
        (standardTier tiers = none →
            (joinOne cost_info pricing_data u r).price_payg_hourly
                = PField.absent ∧
            (joinOne cost_info pricing_data u r).price_1yr_reserved
                = PField.absent) ∧
        (∀ tn p, standardTier tiers = some (tn, p) →
            (joinOne cost_info pricing_data u r).price_payg_hourly
                = pGet p.payg ∧
            (joinOne cost_info pricing_data u r).price_payg_monthly
                = pGet p.payg1Month ∧
            (joinOne cost_info pricing_data u r).price_payg_yearly
                = pGet p.payg1Year ∧
            (joinOne cost_info pricing_data u r).price_1yr_reserved
                = pGet p.oneYear ∧
            (joinOne cost_info pricing_data u r).price_3yr_reserved
                = pGet p.threeYear ∧
            (joinOne cost_info pricing_data u r).price_payg_hourly
                ≠ PField.absent) ∧
        (spotTier tiers = none →
            (joinOne cost_info pricing_data u r).price_spot_hourly
                = PField.absent) ∧
        (∀ tn p, spotTier tiers = some (tn, p) →
            (joinOne cost_info pricing_data u r).price_spot_hourly
                = pGet p.payg ∧
            (joinOne cost_info pricing_data u r).price_spot_monthly
                = pGet p.payg1Month) ∧
        (lowPriorityTier tiers = none →
            (joinOne cost_info pricing_data u r).price_low_priority_hourly
                = PField.absent) ∧
        (∀ tn p, lowPriorityTier tiers = some (tn, p) →
            (joinOne cost_info pricing_data u r).price_low_priority_hourly
                = pGet p.payg ∧
            (joinOne cost_info pricing_data u r).price_low_priority_monthly
                = pGet p.payg1Month)) := by
  refine ⟨?_, ?_, ?_, ?_, ?_⟩
  · intro e es hu
    subst hu
    simp [joinOne]
  · intro hu
    subst hu
    simp [joinOne]
  · intro hu
    subst hu
    simp [joinOne]
  · intro hsel
    refine ⟨?_, ?_, ?_⟩ <;> simp [joinOne, hsel]
  · intro pn tiers hsel
    refine ⟨?_, ?_, ?_, ?_, ?_, ?_⟩
    · intro hstd
      constructor <;> simp [joinOne, hsel, hstd]
    · intro tn p hstd
      refine ⟨?_, ?_, ?_, ?_, ?_, ?_⟩ <;>
        simp [joinOne, hsel, hstd, pGet_ne_absent]
    · intro hspot
      simp [joinOne, hsel, hspot]
    · intro tn p hspot
      constructor <;> simp [joinOne, hsel, hspot]
    · intro hlow
      simp [joinOne, hsel, hlow]
    · intro tn p hlow
      constructor <;> simp [joinOne, hsel, hlow]

theorem c3_degraded_field_presence_witness :
    ((some [("other", defaultUtil)]
        : Option (List (String × UtilEntry))) = some [("other", defaultUtil)]) ∧
    (joinOne [] [] (some [("other", defaultUtil)])
        ⟨"i1", "vm1", "eastus", "Standard_D2s_v3", "Linux"⟩).utilization_status
      = some (((lookupA [("other", defaultUtil)] ("vm1" : String).toLower).getD
          defaultUtil).recommendation) :=
  ⟨rfl,
    (c3_degraded_field_presence [] [] (some [("other", defaultUtil)])
      ⟨"i1", "vm1", "eastus", "Standard_D2s_v3", "Linux"⟩).1
      ("other", defaultUtil) [] rfl⟩

/-- C3 fails as stated: for a resource whose (location, size) has no
catalog cell and with no utilization map, `join_data` never assigns
the price keys or the utilization-status key at all — the record omits
them instead of carrying the "N/A" marker. -/
theorem c3_counterexample :
    (joinData [⟨"i1", "vm1", "eastus", "Standard_D2s_v3", "Linux"⟩]
        [] [] none).map
        (fun j => (j.price_payg_hourly, j.price_spot_hourly,
                   j.price_low_priority_hourly, j.utilization_status))
      = [(PField.absent, PField.absent, PField.absent, none)] := by
  decide
